import Mathlib

/-!
Shallow embedding of `pkg/sentry/fs/ext4/disklayout/superblock.go` (gVisor):
the three superblock feature bitset codecs (compatible, incompatible,
read-only compatible), the superblock state bitset codec, the error-policy
and creator-OS enumeration constants, and a model of the mount-admission
policy described by the specification.  Go `uint32`/`uint16` values are
embedded as `Nat`; all bit operations stay below `2 ^ 32` so no overflow
arises.
-/

namespace Disklayout

/-! Superblock compatible features (superblock.go lines 148-250). -/

def SbDirPrealloc : Nat := 0x1

def SbImagicInodes : Nat := 0x2

def SbHasJournal : Nat := 0x4

def SbExtAttr : Nat := 0x8

def SbResizeInode : Nat := 0x10

def SbDirIndex : Nat := 0x20

def SbLazyBg : Nat := 0x40

def SbExcludeInode : Nat := 0x80

def SbExcludeBitmap : Nat := 0x100

def SbSparseV2 : Nat := 0x200

/-- `CompatFeatures` represents a superblock's compatible feature set. -/
structure CompatFeatures where
  DirPrealloc : Bool
  ImagicInodes : Bool
  HasJournal : Bool
  ExtAttr : Bool
  ResizeInode : Bool
  DirIndex : Bool
  LazyBg : Bool
  ExcludeInode : Bool
  ExcludeBitmap : Bool
  SparseV2 : Bool
deriving DecidableEq

/-- `ToInt` converts superblock compatible features back to its 32-bit rep. -/
def CompatFeatures.ToInt (f : CompatFeatures) : Nat :=
  let res : Nat := 0
  let res := if f.DirPrealloc then res ||| SbDirPrealloc else res
  let res := if f.ImagicInodes then res ||| SbImagicInodes else res
  let res := if f.HasJournal then res ||| SbHasJournal else res
  let res := if f.ExtAttr then res ||| SbExtAttr else res
  let res := if f.ResizeInode then res ||| SbResizeInode else res
  let res := if f.DirIndex then res ||| SbDirIndex else res
  let res := if f.LazyBg then res ||| SbLazyBg else res
  let res := if f.ExcludeInode then res ||| SbExcludeInode else res
  let res := if f.ExcludeBitmap then res ||| SbExcludeBitmap else res
  let res := if f.SparseV2 then res ||| SbSparseV2 else res
  res

/-- `CompatFeaturesFromInt` converts the integer representation of superblock
compatible features to a `CompatFeatures` struct. -/
def CompatFeaturesFromInt (f : Nat) : CompatFeatures :=
  { DirPrealloc := decide (f &&& SbDirPrealloc > 0)
    ImagicInodes := decide (f &&& SbImagicInodes > 0)
    HasJournal := decide (f &&& SbHasJournal > 0)
    ExtAttr := decide (f &&& SbExtAttr > 0)
    ResizeInode := decide (f &&& SbResizeInode > 0)
    DirIndex := decide (f &&& SbDirIndex > 0)
    LazyBg := decide (f &&& SbLazyBg > 0)
    ExcludeInode := decide (f &&& SbExcludeInode > 0)
    ExcludeBitmap := decide (f &&& SbExcludeBitmap > 0)
    SparseV2 := decide (f &&& SbSparseV2 > 0) }

/-! Superblock incompatible features (superblock.go lines 252-407). -/

def SbCompression : Nat := 0x1

def SbDirentFileType : Nat := 0x2

def SbRecovery : Nat := 0x4

def SbJournalDev : Nat := 0x8

def SbMetaBG : Nat := 0x10

def SbExtents : Nat := 0x40

def SbIs64Bit : Nat := 0x80

def SbMMP : Nat := 0x100

def SbFlexBg : Nat := 0x200

def SbExtAttrInode : Nat := 0x400

def SbDirData : Nat := 0x1000

def SbCsumSeed : Nat := 0x2000

def SbLargeDir : Nat := 0x4000

def SbInlineData : Nat := 0x8000

def SbEncrypted : Nat := 0x10000

/-- `IncompatFeatures` represents a superblock's incompatible feature set. -/
structure IncompatFeatures where
  Compression : Bool
  DirentFileType : Bool
  Recovery : Bool
  JournalDev : Bool
  MetaBG : Bool
  Extents : Bool
  Is64Bit : Bool
  MMP : Bool
  FlexBg : Bool
  ExtAttrInode : Bool
  DirData : Bool
  CsumSeed : Bool
  LargeDir : Bool
  InlineData : Bool
  Encrypted : Bool
deriving DecidableEq

/-- `ToInt` converts superblock incompatible features back to its 32-bit rep. -/
def IncompatFeatures.ToInt (f : IncompatFeatures) : Nat :=
  let res : Nat := 0
  let res := if f.Compression then res ||| SbCompression else res
  let res := if f.DirentFileType then res ||| SbDirentFileType else res
  let res := if f.Recovery then res ||| SbRecovery else res
  let res := if f.JournalDev then res ||| SbJournalDev else res
  let res := if f.MetaBG then res ||| SbMetaBG else res
  let res := if f.Extents then res ||| SbExtents else res
  let res := if f.Is64Bit then res ||| SbIs64Bit else res
  let res := if f.MMP then res ||| SbMMP else res
  let res := if f.FlexBg then res ||| SbFlexBg else res
  let res := if f.ExtAttrInode then res ||| SbExtAttrInode else res
  let res := if f.DirData then res ||| SbDirData else res
  let res := if f.CsumSeed then res ||| SbCsumSeed else res
  let res := if f.LargeDir then res ||| SbLargeDir else res
  let res := if f.InlineData then res ||| SbInlineData else res
  let res := if f.Encrypted then res ||| SbEncrypted else res
  res

/-- `IncompatFeaturesFromInt` converts the integer representation of superblock
incompatible features to an `IncompatFeatures` struct. -/
def IncompatFeaturesFromInt (f : Nat) : IncompatFeatures :=
  { Compression := decide (f &&& SbCompression > 0)
    DirentFileType := decide (f &&& SbDirentFileType > 0)
    Recovery := decide (f &&& SbRecovery > 0)
    JournalDev := decide (f &&& SbJournalDev > 0)
    MetaBG := decide (f &&& SbMetaBG > 0)
    Extents := decide (f &&& SbExtents > 0)
    Is64Bit := decide (f &&& SbIs64Bit > 0)
    MMP := decide (f &&& SbMMP > 0)
    FlexBg := decide (f &&& SbFlexBg > 0)
    ExtAttrInode := decide (f &&& SbExtAttrInode > 0)
    DirData := decide (f &&& SbDirData > 0)
    CsumSeed := decide (f &&& SbCsumSeed > 0)
    LargeDir := decide (f &&& SbLargeDir > 0)
    InlineData := decide (f &&& SbInlineData > 0)
    Encrypted := decide (f &&& SbEncrypted > 0) }

/-! Superblock readonly compatible features (superblock.go lines 409-551). -/

def SbSparse : Nat := 0x1

def SbLargeFile : Nat := 0x2

def SbBTreeDir : Nat := 0x4

def SbHugeFile : Nat := 0x8

def SbGdtCsum : Nat := 0x10

def SbDirNlink : Nat := 0x20

def SbExtraIsize : Nat := 0x40

def SbHasSnapshot : Nat := 0x80

def SbQuota : Nat := 0x100

def SbBigalloc : Nat := 0x200

def SbMetadataCsum : Nat := 0x400

def SbReplica : Nat := 0x800

def SbReadOnly : Nat := 0x1000

def SbProject : Nat := 0x2000

/-- `RoCompatFeatures` represents a superblock's readonly compatible feature
set. -/
structure RoCompatFeatures where
  Sparse : Bool
  LargeFile : Bool
  BTreeDir : Bool
  HugeFile : Bool
  GdtCsum : Bool
  DirNlink : Bool
  ExtraIsize : Bool
  HasSnapshot : Bool
  Quota : Bool
  Bigalloc : Bool
  MetadataCsum : Bool
  Replica : Bool
  ReadOnly : Bool
  Project : Bool
deriving DecidableEq

/-- `ToInt` converts superblock readonly compatible features to its 32-bit
rep. -/
def RoCompatFeatures.ToInt (f : RoCompatFeatures) : Nat :=
  let res : Nat := 0
  let res := if f.Sparse then res ||| SbSparse else res
  let res := if f.LargeFile then res ||| SbLargeFile else res
  let res := if f.BTreeDir then res ||| SbBTreeDir else res
  let res := if f.HugeFile then res ||| SbHugeFile else res
  let res := if f.GdtCsum then res ||| SbGdtCsum else res
  let res := if f.DirNlink then res ||| SbDirNlink else res
  let res := if f.ExtraIsize then res ||| SbExtraIsize else res
  let res := if f.HasSnapshot then res ||| SbHasSnapshot else res
  let res := if f.Quota then res ||| SbQuota else res
  let res := if f.Bigalloc then res ||| SbBigalloc else res
  let res := if f.MetadataCsum then res ||| SbMetadataCsum else res
  let res := if f.Replica then res ||| SbReplica else res
  let res := if f.ReadOnly then res ||| SbReadOnly else res
  let res := if f.Project then res ||| SbProject else res
  res

/-- `RoCompatFeaturesFromInt` converts the integer representation of
superblock readonly compatible features to a `RoCompatFeatures` struct. -/
def RoCompatFeaturesFromInt (f : Nat) : RoCompatFeatures :=
  { Sparse := decide (f &&& SbSparse > 0)
    LargeFile := decide (f &&& SbLargeFile > 0)
    BTreeDir := decide (f &&& SbBTreeDir > 0)
    HugeFile := decide (f &&& SbHugeFile > 0)
    GdtCsum := decide (f &&& SbGdtCsum > 0)
    DirNlink := decide (f &&& SbDirNlink > 0)
    ExtraIsize := decide (f &&& SbExtraIsize > 0)
    HasSnapshot := decide (f &&& SbHasSnapshot > 0)
    Quota := decide (f &&& SbQuota > 0)
    Bigalloc := decide (f &&& SbBigalloc > 0)
    MetadataCsum := decide (f &&& SbMetadataCsum > 0)
    Replica := decide (f &&& SbReplica > 0)
    ReadOnly := decide (f &&& SbReadOnly > 0)
    Project := decide (f &&& SbProject > 0) }

/-! OS codes and error policy (superblock.go lines 553-573). -/

/-- `OSCode` represents ext4 operating system codes (a Go `uint32`). -/
abbrev OSCode := Nat

def Linux : OSCode := 0

def Hurd : OSCode := 1

def Masix : OSCode := 2

def FreeBSD : OSCode := 3

def Lites : OSCode := 4

/-- `SbErrorPolicy` represents the superblock error policy (a Go `uint16`). -/
abbrev SbErrorPolicy := Nat

def Continue : SbErrorPolicy := 1

def RemountReadOnly : SbErrorPolicy := 2

def Panic : SbErrorPolicy := 3

/-! Superblock state (superblock.go lines 575-618). -/

def SbUmounted : Nat := 0x1

def SbError : Nat := 0x2

def SbOrphanRecovery : Nat := 0x4

/-- `SbState` represents all the different combinations of the super block
state. -/
structure SbState where
  Umounted : Bool
  Error : Bool
  OrphanRecovery : Bool
deriving DecidableEq

/-- `ToInt` converts an `SbState` struct back to its 16-bit representation. -/
def SbState.ToInt (s : SbState) : Nat :=
  let res : Nat := 0
  let res := if s.Umounted then res ||| SbUmounted else res
  let res := if s.Error then res ||| SbError else res
  let res := if s.OrphanRecovery then res ||| SbOrphanRecovery else res
  res

/-- `SbStateFromInt` converts the 16-bit state representation to an `SbState`
struct. -/
def SbStateFromInt (state : Nat) : SbState :=
  { Umounted := decide (state &&& SbUmounted > 0)
    Error := decide (state &&& SbError > 0)
    OrphanRecovery := decide (state &&& SbOrphanRecovery > 0) }

/-! Specification-side definitions, for the refinement claims about the
encoders: the spec describes `encode` as the bitwise OR of the bit value of
every true field. -/

/-- The specification's description of the compatible-feature encoder: OR
together the bit value for every field that is true; fields that are false
contribute nothing. -/
def compatSpecEncode (f : CompatFeatures) : Nat :=
  (if f.DirPrealloc then SbDirPrealloc else 0) |||
  (if f.ImagicInodes then SbImagicInodes else 0) |||
  (if f.HasJournal then SbHasJournal else 0) |||
  (if f.ExtAttr then SbExtAttr else 0) |||
  (if f.ResizeInode then SbResizeInode else 0) |||
  (if f.DirIndex then SbDirIndex else 0) |||
  (if f.LazyBg then SbLazyBg else 0) |||
  (if f.ExcludeInode then SbExcludeInode else 0) |||
  (if f.ExcludeBitmap then SbExcludeBitmap else 0) |||
  (if f.SparseV2 then SbSparseV2 else 0)

/-- The specification's description of the incompatible-feature encoder: OR
together the bit value for every field that is true; fields that are false
contribute nothing. -/
def incompatSpecEncode (f : IncompatFeatures) : Nat :=
  (if f.Compression then SbCompression else 0) |||
  (if f.DirentFileType then SbDirentFileType else 0) |||
  (if f.Recovery then SbRecovery else 0) |||
  (if f.JournalDev then SbJournalDev else 0) |||
  (if f.MetaBG then SbMetaBG else 0) |||
  (if f.Extents then SbExtents else 0) |||
  (if f.Is64Bit then SbIs64Bit else 0) |||
  (if f.MMP then SbMMP else 0) |||
  (if f.FlexBg then SbFlexBg else 0) |||
  (if f.ExtAttrInode then SbExtAttrInode else 0) |||
  (if f.DirData then SbDirData else 0) |||
  (if f.CsumSeed then SbCsumSeed else 0) |||
  (if f.LargeDir then SbLargeDir else 0) |||
  (if f.InlineData then SbInlineData else 0) |||
  (if f.Encrypted then SbEncrypted else 0)

/-- The specification's description of the readonly-compatible-feature
encoder: OR together the bit value for every field that is true; fields that
are false contribute nothing. -/
def roCompatSpecEncode (f : RoCompatFeatures) : Nat :=
  (if f.Sparse then SbSparse else 0) |||
  (if f.LargeFile then SbLargeFile else 0) |||
  (if f.BTreeDir then SbBTreeDir else 0) |||
  (if f.HugeFile then SbHugeFile else 0) |||
  (if f.GdtCsum then SbGdtCsum else 0) |||
  (if f.DirNlink then SbDirNlink else 0) |||
  (if f.ExtraIsize then SbExtraIsize else 0) |||
  (if f.HasSnapshot then SbHasSnapshot else 0) |||
  (if f.Quota then SbQuota else 0) |||
  (if f.Bigalloc then SbBigalloc else 0) |||
  (if f.MetadataCsum then SbMetadataCsum else 0) |||
  (if f.Replica then SbReplica else 0) |||
  (if f.ReadOnly then SbReadOnly else 0) |||
  (if f.Project then SbProject else 0)

/-! Mount-admission policy.  The policy itself is not part of the repository
sources (only the feature codecs it consults are), so it is modelled from the
specification. -/

/-- The mount mode requested by the caller. -/
inductive MountMode where
  | readOnly
  | readWrite
deriving DecidableEq

/-- The three terminal outcomes of the admission policy. -/
inductive AdmissionOutcome where
  | refuseMount
  | forceReadOnly
  | mountPermitted (mode : MountMode)
deriving DecidableEq

/-- The set of incompatible-feature bits this implementation understands:
the OR of every named incompatible-feature constant. -/
def incompatKnownMask : Nat :=
  SbCompression ||| SbDirentFileType ||| SbRecovery ||| SbJournalDev |||
  SbMetaBG ||| SbExtents ||| SbIs64Bit ||| SbMMP ||| SbFlexBg |||
  SbExtAttrInode ||| SbDirData ||| SbCsumSeed ||| SbLargeDir |||
  SbInlineData ||| SbEncrypted

/-- The set of readonly-compatible-feature bits this implementation
understands: the OR of every named readonly-compatible-feature constant. -/
def roCompatKnownMask : Nat :=
  SbSparse ||| SbLargeFile ||| SbBTreeDir ||| SbHugeFile ||| SbGdtCsum |||
  SbDirNlink ||| SbExtraIsize ||| SbHasSnapshot ||| SbQuota ||| SbBigalloc |||
  SbMetadataCsum ||| SbReplica ||| SbReadOnly ||| SbProject

/-- Modelled from the spec: the mount-admission policy of spec section 4.5 is
missing from the repository sources (only the feature codecs it consults are
present), so it is modelled from the specification text.  Input is the raw
incompatible and readonly-compatible feature words of the buffer plus the
requested mount mode.  If any incompatible-feature bit is set that this
implementation does not understand, refuse the mount; else if any
readonly-compatible bit is set that this implementation does not understand,
force read-only; else the mount is permitted in the mode requested. -/
def admissionPolicy (incompat roCompat : Nat) (mode : MountMode) :
    AdmissionOutcome :=
  if incompat &&& incompatKnownMask ≠ incompat then
    AdmissionOutcome.refuseMount
  else if roCompat &&& roCompatKnownMask ≠ roCompat then
    AdmissionOutcome.forceReadOnly
  else
    AdmissionOutcome.mountPermitted mode

/-! Helper lemmas for the bit-level proofs. -/

lemma ite_lor_push (c : Bool) (r b : Nat) :
    (if c then r ||| b else r) = r ||| (if c then b else 0) := by
  cases c <;> simp

lemma decide_land_pow (n k : Nat) :
    decide (n &&& 2 ^ k > 0) = n.testBit k := by
  rw [Nat.and_two_pow]
  cases h : n.testBit k <;> simp [h]

lemma cond_land_pow (n k : Nat) :
    (if decide (n &&& 2 ^ k > 0) then 2 ^ k else 0) = n &&& 2 ^ k := by
  rw [Nat.and_two_pow]
  cases h : n.testBit k <;> simp [h]

lemma testBit_ite_pow (c : Bool) (k i : Nat) :
    (if c then 2 ^ k else 0).testBit i = (c && decide (k = i)) := by
  cases c <;> simp [Nat.testBit_two_pow]

lemma land_lor_merge (n a b : Nat) :
    (n &&& a) ||| (n &&& b) = n &&& (a ||| b) :=
  (Nat.and_or_distrib_left n a b).symm

lemma decide_pos_eq_decide_ne_zero (x : Nat) :
    decide (x > 0) = decide (x ≠ 0) := by
  simp [Nat.pos_iff_ne_zero]

lemma SbDirPrealloc_pow : SbDirPrealloc = 2 ^ 0 := by decide

lemma SbImagicInodes_pow : SbImagicInodes = 2 ^ 1 := by decide

lemma SbHasJournal_pow : SbHasJournal = 2 ^ 2 := by decide

lemma SbExtAttr_pow : SbExtAttr = 2 ^ 3 := by decide

lemma SbResizeInode_pow : SbResizeInode = 2 ^ 4 := by decide

lemma SbDirIndex_pow : SbDirIndex = 2 ^ 5 := by decide

lemma SbLazyBg_pow : SbLazyBg = 2 ^ 6 := by decide

lemma SbExcludeInode_pow : SbExcludeInode = 2 ^ 7 := by decide

lemma SbExcludeBitmap_pow : SbExcludeBitmap = 2 ^ 8 := by decide

lemma SbSparseV2_pow : SbSparseV2 = 2 ^ 9 := by decide

lemma SbCompression_pow : SbCompression = 2 ^ 0 := by decide

lemma SbDirentFileType_pow : SbDirentFileType = 2 ^ 1 := by decide

lemma SbRecovery_pow : SbRecovery = 2 ^ 2 := by decide

lemma SbJournalDev_pow : SbJournalDev = 2 ^ 3 := by decide

lemma SbMetaBG_pow : SbMetaBG = 2 ^ 4 := by decide

lemma SbExtents_pow : SbExtents = 2 ^ 6 := by decide

lemma SbIs64Bit_pow : SbIs64Bit = 2 ^ 7 := by decide

lemma SbMMP_pow : SbMMP = 2 ^ 8 := by decide

lemma SbFlexBg_pow : SbFlexBg = 2 ^ 9 := by decide

lemma SbExtAttrInode_pow : SbExtAttrInode = 2 ^ 10 := by decide

lemma SbDirData_pow : SbDirData = 2 ^ 12 := by decide

lemma SbCsumSeed_pow : SbCsumSeed = 2 ^ 13 := by decide

lemma SbLargeDir_pow : SbLargeDir = 2 ^ 14 := by decide

lemma SbInlineData_pow : SbInlineData = 2 ^ 15 := by decide

lemma SbEncrypted_pow : SbEncrypted = 2 ^ 16 := by decide

lemma SbSparse_pow : SbSparse = 2 ^ 0 := by decide

lemma SbLargeFile_pow : SbLargeFile = 2 ^ 1 := by decide

lemma SbBTreeDir_pow : SbBTreeDir = 2 ^ 2 := by decide

lemma SbHugeFile_pow : SbHugeFile = 2 ^ 3 := by decide

lemma SbGdtCsum_pow : SbGdtCsum = 2 ^ 4 := by decide

lemma SbDirNlink_pow : SbDirNlink = 2 ^ 5 := by decide

lemma SbExtraIsize_pow : SbExtraIsize = 2 ^ 6 := by decide

lemma SbHasSnapshot_pow : SbHasSnapshot = 2 ^ 7 := by decide

lemma SbQuota_pow : SbQuota = 2 ^ 8 := by decide

lemma SbBigalloc_pow : SbBigalloc = 2 ^ 9 := by decide

lemma SbMetadataCsum_pow : SbMetadataCsum = 2 ^ 10 := by decide

lemma SbReplica_pow : SbReplica = 2 ^ 11 := by decide

lemma SbReadOnly_pow : SbReadOnly = 2 ^ 12 := by decide

lemma SbProject_pow : SbProject = 2 ^ 13 := by decide

lemma SbUmounted_pow : SbUmounted = 2 ^ 0 := by decide

lemma SbError_pow : SbError = 2 ^ 1 := by decide

lemma SbOrphanRecovery_pow : SbOrphanRecovery = 2 ^ 2 := by decide

/-! Core codec lemmas: masking of encode-after-decode, and roundtrip of
decode-after-encode, for each of the four bitset codecs. -/

lemma compat_toInt_fromInt (n : Nat) :
    (CompatFeaturesFromInt n).ToInt = n &&& 0x3FF := by
  simp only [CompatFeaturesFromInt, CompatFeatures.ToInt,
    SbDirPrealloc_pow, SbImagicInodes_pow, SbHasJournal_pow, SbExtAttr_pow,
    SbResizeInode_pow, SbDirIndex_pow, SbLazyBg_pow, SbExcludeInode_pow,
    SbExcludeBitmap_pow, SbSparseV2_pow,
    ite_lor_push, Nat.zero_or, cond_land_pow, land_lor_merge]
  congr 1

lemma incompat_toInt_fromInt (n : Nat) :
    (IncompatFeaturesFromInt n).ToInt = n &&& 0x1F7DF := by
  simp only [IncompatFeaturesFromInt, IncompatFeatures.ToInt,
    SbCompression_pow, SbDirentFileType_pow, SbRecovery_pow, SbJournalDev_pow,
    SbMetaBG_pow, SbExtents_pow, SbIs64Bit_pow, SbMMP_pow, SbFlexBg_pow,
    SbExtAttrInode_pow, SbDirData_pow, SbCsumSeed_pow, SbLargeDir_pow,
    SbInlineData_pow, SbEncrypted_pow,
    ite_lor_push, Nat.zero_or, cond_land_pow, land_lor_merge]
  congr 1

lemma rocompat_toInt_fromInt (n : Nat) :
    (RoCompatFeaturesFromInt n).ToInt = n &&& 0x3FFF := by
  simp only [RoCompatFeaturesFromInt, RoCompatFeatures.ToInt,
    SbSparse_pow, SbLargeFile_pow, SbBTreeDir_pow, SbHugeFile_pow,
    SbGdtCsum_pow, SbDirNlink_pow, SbExtraIsize_pow, SbHasSnapshot_pow,
    SbQuota_pow, SbBigalloc_pow, SbMetadataCsum_pow, SbReplica_pow,
    SbReadOnly_pow, SbProject_pow,
    ite_lor_push, Nat.zero_or, cond_land_pow, land_lor_merge]
  congr 1

lemma sbstate_toInt_fromInt (n : Nat) :
    (SbStateFromInt n).ToInt = n &&& 0x7 := by
  simp only [SbStateFromInt, SbState.ToInt,
    SbUmounted_pow, SbError_pow, SbOrphanRecovery_pow,
    ite_lor_push, Nat.zero_or, cond_land_pow, land_lor_merge]
  congr 1

lemma compat_fromInt_toInt (s : CompatFeatures) :
    CompatFeaturesFromInt s.ToInt = s := by
  obtain ⟨f1, f2, f3, f4, f5, f6, f7, f8, f9, f10⟩ := s
  simp only [CompatFeatures.ToInt, CompatFeaturesFromInt,
    SbDirPrealloc_pow, SbImagicInodes_pow, SbHasJournal_pow, SbExtAttr_pow,
    SbResizeInode_pow, SbDirIndex_pow, SbLazyBg_pow, SbExcludeInode_pow,
    SbExcludeBitmap_pow, SbSparseV2_pow,
    ite_lor_push, Nat.zero_or, CompatFeatures.mk.injEq, decide_land_pow,
    Nat.testBit_lor, testBit_ite_pow]
  simp

lemma incompat_fromInt_toInt (s : IncompatFeatures) :
    IncompatFeaturesFromInt s.ToInt = s := by
  obtain ⟨f1, f2, f3, f4, f5, f6, f7, f8, f9, f10, f11, f12, f13, f14, f15⟩ := s
  simp only [IncompatFeatures.ToInt, IncompatFeaturesFromInt,
    SbCompression_pow, SbDirentFileType_pow, SbRecovery_pow, SbJournalDev_pow,
    SbMetaBG_pow, SbExtents_pow, SbIs64Bit_pow, SbMMP_pow, SbFlexBg_pow,
    SbExtAttrInode_pow, SbDirData_pow, SbCsumSeed_pow, SbLargeDir_pow,
    SbInlineData_pow, SbEncrypted_pow,
    ite_lor_push, Nat.zero_or, IncompatFeatures.mk.injEq, decide_land_pow,
    Nat.testBit_lor, testBit_ite_pow]
  simp

lemma rocompat_fromInt_toInt (s : RoCompatFeatures) :
    RoCompatFeaturesFromInt s.ToInt = s := by
  obtain ⟨f1, f2, f3, f4, f5, f6, f7, f8, f9, f10, f11, f12, f13, f14⟩ := s
  simp only [RoCompatFeatures.ToInt, RoCompatFeaturesFromInt,
    SbSparse_pow, SbLargeFile_pow, SbBTreeDir_pow, SbHugeFile_pow,
    SbGdtCsum_pow, SbDirNlink_pow, SbExtraIsize_pow, SbHasSnapshot_pow,
    SbQuota_pow, SbBigalloc_pow, SbMetadataCsum_pow, SbReplica_pow,
    SbReadOnly_pow, SbProject_pow,
    ite_lor_push, Nat.zero_or, RoCompatFeatures.mk.injEq, decide_land_pow,
    Nat.testBit_lor, testBit_ite_pow]
  simp

lemma sbstate_fromInt_toInt (s : SbState) :
    SbStateFromInt s.ToInt = s := by
  obtain ⟨f1, f2, f3⟩ := s
  revert f1 f2 f3
  decide

lemma incompat_fromInt_land_unassigned (n : Nat) :
    IncompatFeaturesFromInt n = IncompatFeaturesFromInt (n &&& 0xFFFFF7DF) := by
  simp only [IncompatFeaturesFromInt, IncompatFeatures.mk.injEq, Nat.and_assoc,
    show (0xFFFFF7DF : Nat) &&& SbCompression = SbCompression from by decide,
    show (0xFFFFF7DF : Nat) &&& SbDirentFileType = SbDirentFileType from by decide,
    show (0xFFFFF7DF : Nat) &&& SbRecovery = SbRecovery from by decide,
    show (0xFFFFF7DF : Nat) &&& SbJournalDev = SbJournalDev from by decide,
    show (0xFFFFF7DF : Nat) &&& SbMetaBG = SbMetaBG from by decide,
    show (0xFFFFF7DF : Nat) &&& SbExtents = SbExtents from by decide,
    show (0xFFFFF7DF : Nat) &&& SbIs64Bit = SbIs64Bit from by decide,
    show (0xFFFFF7DF : Nat) &&& SbMMP = SbMMP from by decide,
    show (0xFFFFF7DF : Nat) &&& SbFlexBg = SbFlexBg from by decide,
    show (0xFFFFF7DF : Nat) &&& SbExtAttrInode = SbExtAttrInode from by decide,
    show (0xFFFFF7DF : Nat) &&& SbDirData = SbDirData from by decide,
    show (0xFFFFF7DF : Nat) &&& SbCsumSeed = SbCsumSeed from by decide,
    show (0xFFFFF7DF : Nat) &&& SbLargeDir = SbLargeDir from by decide,
    show (0xFFFFF7DF : Nat) &&& SbInlineData = SbInlineData from by decide,
    show (0xFFFFF7DF : Nat) &&& SbEncrypted = SbEncrypted from by decide]

/-! Claim theorems. -/

/-- Claim C1, counterexample: decoding the compatible-feature word `0x400`
(a bit outside the known compatible bit positions) and re-encoding it yields
`0`, not `0x400`, so `toInt (fromInt n) = n` fails for `n = 0x400`. -/
theorem compat_roundtrip_fails_on_unknown_bit :
    (CompatFeaturesFromInt 0x400).ToInt = 0 ∧
    (CompatFeaturesFromInt 0x400).ToInt ≠ 0x400 := by
  decide

/-- Claim C1 (amended): for every 32-bit integer `n`, encoding the decoded
feature set reproduces `n` exactly if and only if every set bit of `n` lies
at a known bit position, i.e. `n & knownMask = n` (with known masks `0x3FF`,
`0x1F7DF` and `0x3FFF` for the compatible, incompatible and
readonly-compatible feature sets respectively); bits outside the known
positions are dropped, so such an `n` is not reproduced. -/
theorem feature_roundtrip_iff_known_bits (n : Nat) (_hn : n < 2 ^ 32) :
    ((CompatFeaturesFromInt n).ToInt = n ↔ n &&& 0x3FF = n) ∧
    ((IncompatFeaturesFromInt n).ToInt = n ↔ n &&& 0x1F7DF = n) ∧
    ((RoCompatFeaturesFromInt n).ToInt = n ↔ n &&& 0x3FFF = n) :=
  ⟨by rw [compat_toInt_fromInt], by rw [incompat_toInt_fromInt],
   by rw [rocompat_toInt_fromInt]⟩

/-- Claim C1 witness: at `n = 0x45` (all bits known in all three sets), the
round trip reproduces `n` exactly. -/
theorem feature_roundtrip_iff_known_bits_witness :
    (CompatFeaturesFromInt 0x45).ToInt = 0x45 ∧
    (IncompatFeaturesFromInt 0x45).ToInt = 0x45 ∧
    (RoCompatFeaturesFromInt 0x45).ToInt = 0x45 :=
  ⟨((feature_roundtrip_iff_known_bits 0x45 (by decide)).1).mpr (by decide),
   ((feature_roundtrip_iff_known_bits 0x45 (by decide)).2.1).mpr (by decide),
   ((feature_roundtrip_iff_known_bits 0x45 (by decide)).2.2).mpr (by decide)⟩

/-- Claim C2: for every 32-bit integer `n`, encoding the decoded feature set
equals `n` masked to the known bit positions: `0x3FF` for the compatible
set, `0x1F7DF` for the incompatible set, `0x3FFF` for the
readonly-compatible set. -/
theorem feature_encode_after_decode_masks (n : Nat) (_hn : n < 2 ^ 32) :
    (CompatFeaturesFromInt n).ToInt = n &&& 0x3FF ∧
    (IncompatFeaturesFromInt n).ToInt = n &&& 0x1F7DF ∧
    (RoCompatFeaturesFromInt n).ToInt = n &&& 0x3FFF :=
  ⟨compat_toInt_fromInt n, incompat_toInt_fromInt n, rocompat_toInt_fromInt n⟩

/-- Claim C2 witness: the masking law evaluated at the all-ones 32-bit
word. -/
theorem feature_encode_after_decode_masks_witness :
    (CompatFeaturesFromInt 0xFFFFFFFF).ToInt = 0xFFFFFFFF &&& 0x3FF ∧
    (IncompatFeaturesFromInt 0xFFFFFFFF).ToInt = 0xFFFFFFFF &&& 0x1F7DF ∧
    (RoCompatFeaturesFromInt 0xFFFFFFFF).ToInt = 0xFFFFFFFF &&& 0x3FFF :=
  feature_encode_after_decode_masks 0xFFFFFFFF (by decide)

/-- Claim C3: for every feature-set value `s` of each of the three kinds,
decoding its encoding gives back `s` exactly. -/
theorem feature_decode_after_encode_roundtrip :
    (∀ s : CompatFeatures, CompatFeaturesFromInt s.ToInt = s) ∧
    (∀ s : IncompatFeatures, IncompatFeaturesFromInt s.ToInt = s) ∧
    (∀ s : RoCompatFeatures, RoCompatFeaturesFromInt s.ToInt = s) :=
  ⟨compat_fromInt_toInt, incompat_fromInt_toInt, rocompat_fromInt_toInt⟩

/-- Claim C4: for every 32-bit integer `raw`, every named field of each of
the three decoded structs equals `(raw & bit) != 0` for that field's
assigned bit constant. -/
theorem feature_decode_fields (raw : Nat) (_h : raw < 2 ^ 32) :
    ((CompatFeaturesFromInt raw).DirPrealloc = decide (raw &&& 0x1 ≠ 0) ∧
     (CompatFeaturesFromInt raw).ImagicInodes = decide (raw &&& 0x2 ≠ 0) ∧
     (CompatFeaturesFromInt raw).HasJournal = decide (raw &&& 0x4 ≠ 0) ∧
     (CompatFeaturesFromInt raw).ExtAttr = decide (raw &&& 0x8 ≠ 0) ∧
     (CompatFeaturesFromInt raw).ResizeInode = decide (raw &&& 0x10 ≠ 0) ∧
     (CompatFeaturesFromInt raw).DirIndex = decide (raw &&& 0x20 ≠ 0) ∧
     (CompatFeaturesFromInt raw).LazyBg = decide (raw &&& 0x40 ≠ 0) ∧
     (CompatFeaturesFromInt raw).ExcludeInode = decide (raw &&& 0x80 ≠ 0) ∧
     (CompatFeaturesFromInt raw).ExcludeBitmap = decide (raw &&& 0x100 ≠ 0) ∧
     (CompatFeaturesFromInt raw).SparseV2 = decide (raw &&& 0x200 ≠ 0)) ∧
    ((IncompatFeaturesFromInt raw).Compression = decide (raw &&& 0x1 ≠ 0) ∧
     (IncompatFeaturesFromInt raw).DirentFileType = decide (raw &&& 0x2 ≠ 0) ∧
     (IncompatFeaturesFromInt raw).Recovery = decide (raw &&& 0x4 ≠ 0) ∧
     (IncompatFeaturesFromInt raw).JournalDev = decide (raw &&& 0x8 ≠ 0) ∧
     (IncompatFeaturesFromInt raw).MetaBG = decide (raw &&& 0x10 ≠ 0) ∧
     (IncompatFeaturesFromInt raw).Extents = decide (raw &&& 0x40 ≠ 0) ∧
     (IncompatFeaturesFromInt raw).Is64Bit = decide (raw &&& 0x80 ≠ 0) ∧
     (IncompatFeaturesFromInt raw).MMP = decide (raw &&& 0x100 ≠ 0) ∧
     (IncompatFeaturesFromInt raw).FlexBg = decide (raw &&& 0x200 ≠ 0) ∧
     (IncompatFeaturesFromInt raw).ExtAttrInode = decide (raw &&& 0x400 ≠ 0) ∧
     (IncompatFeaturesFromInt raw).DirData = decide (raw &&& 0x1000 ≠ 0) ∧
     (IncompatFeaturesFromInt raw).CsumSeed = decide (raw &&& 0x2000 ≠ 0) ∧
     (IncompatFeaturesFromInt raw).LargeDir = decide (raw &&& 0x4000 ≠ 0) ∧
     (IncompatFeaturesFromInt raw).InlineData = decide (raw &&& 0x8000 ≠ 0) ∧
     (IncompatFeaturesFromInt raw).Encrypted = decide (raw &&& 0x10000 ≠ 0)) ∧
    ((RoCompatFeaturesFromInt raw).Sparse = decide (raw &&& 0x1 ≠ 0) ∧
     (RoCompatFeaturesFromInt raw).LargeFile = decide (raw &&& 0x2 ≠ 0) ∧
     (RoCompatFeaturesFromInt raw).BTreeDir = decide (raw &&& 0x4 ≠ 0) ∧
     (RoCompatFeaturesFromInt raw).HugeFile = decide (raw &&& 0x8 ≠ 0) ∧
     (RoCompatFeaturesFromInt raw).GdtCsum = decide (raw &&& 0x10 ≠ 0) ∧
     (RoCompatFeaturesFromInt raw).DirNlink = decide (raw &&& 0x20 ≠ 0) ∧
     (RoCompatFeaturesFromInt raw).ExtraIsize = decide (raw &&& 0x40 ≠ 0) ∧
     (RoCompatFeaturesFromInt raw).HasSnapshot = decide (raw &&& 0x80 ≠ 0) ∧
     (RoCompatFeaturesFromInt raw).Quota = decide (raw &&& 0x100 ≠ 0) ∧
     (RoCompatFeaturesFromInt raw).Bigalloc = decide (raw &&& 0x200 ≠ 0) ∧
     (RoCompatFeaturesFromInt raw).MetadataCsum = decide (raw &&& 0x400 ≠ 0) ∧
     (RoCompatFeaturesFromInt raw).Replica = decide (raw &&& 0x800 ≠ 0) ∧
     (RoCompatFeaturesFromInt raw).ReadOnly = decide (raw &&& 0x1000 ≠ 0) ∧
     (RoCompatFeaturesFromInt raw).Project = decide (raw &&& 0x2000 ≠ 0)) := by
  simp only [CompatFeaturesFromInt, IncompatFeaturesFromInt,
    RoCompatFeaturesFromInt,
    SbDirPrealloc, SbImagicInodes, SbHasJournal, SbExtAttr, SbResizeInode,
    SbDirIndex, SbLazyBg, SbExcludeInode, SbExcludeBitmap, SbSparseV2,
    SbCompression, SbDirentFileType, SbRecovery, SbJournalDev, SbMetaBG,
    SbExtents, SbIs64Bit, SbMMP, SbFlexBg, SbExtAttrInode, SbDirData,
    SbCsumSeed, SbLargeDir, SbInlineData, SbEncrypted,
    SbSparse, SbLargeFile, SbBTreeDir, SbHugeFile, SbGdtCsum, SbDirNlink,
    SbExtraIsize, SbHasSnapshot, SbQuota, SbBigalloc, SbMetadataCsum,
    SbReplica, SbReadOnly, SbProject,
    decide_pos_eq_decide_ne_zero, and_self]

/-- Claim C4 witness: the field characterization evaluated at the word
`0x12345`. -/
theorem feature_decode_fields_witness :
    (CompatFeaturesFromInt 0x12345).HasJournal = decide ((0x12345 : Nat) &&& 0x4 ≠ 0) ∧
    (IncompatFeaturesFromInt 0x12345).Is64Bit = decide ((0x12345 : Nat) &&& 0x80 ≠ 0) ∧
    (RoCompatFeaturesFromInt 0x12345).Bigalloc = decide ((0x12345 : Nat) &&& 0x200 ≠ 0) :=
  ⟨(feature_decode_fields 0x12345 (by decide)).1.2.2.1,
   (feature_decode_fields 0x12345 (by decide)).2.1.2.2.2.2.2.2.1,
   (feature_decode_fields 0x12345 (by decide)).2.2.2.2.2.2.2.2.2.2.2.1⟩

/-- Claim C5: each encoder returns exactly the bitwise OR of the assigned bit
constants of the fields that are true; false fields contribute no bit, as the
specification describes. -/
theorem encode_is_or_of_true_fields :
    (∀ f : CompatFeatures, f.ToInt = compatSpecEncode f) ∧
    (∀ f : IncompatFeatures, f.ToInt = incompatSpecEncode f) ∧
    (∀ f : RoCompatFeatures, f.ToInt = roCompatSpecEncode f) := by
  refine ⟨fun f => ?_, fun f => ?_, fun f => ?_⟩
  · simp only [CompatFeatures.ToInt, compatSpecEncode, ite_lor_push,
      Nat.zero_or]
  · simp only [IncompatFeatures.ToInt, incompatSpecEncode, ite_lor_push,
      Nat.zero_or]
  · simp only [RoCompatFeatures.ToInt, roCompatSpecEncode, ite_lor_push,
      Nat.zero_or]

/-- Claim C6: whenever the incompatible-feature word sets any bit outside the
known incompatible-feature set, the admission policy refuses the mount,
regardless of the readonly-compatible word and the requested mount mode. -/
theorem admission_unknown_incompat_refuses
    (incompat roCompat : Nat) (mode : MountMode)
    (h : incompat &&& incompatKnownMask ≠ incompat) :
    admissionPolicy incompat roCompat mode = AdmissionOutcome.refuseMount := by
  simp [admissionPolicy, h]

/-- Claim C6 witness: the incompatible word `0x20000040` (Extents plus one
unknown high bit) is refused even with a fully known readonly-compatible
word and a read-only mount request. -/
theorem admission_unknown_incompat_refuses_witness :
    admissionPolicy 0x20000040 0x10 MountMode.readOnly =
      AdmissionOutcome.refuseMount :=
  admission_unknown_incompat_refuses 0x20000040 0x10 MountMode.readOnly
    (by decide)

/-- Claim C7: decoding the incompatible word `0x40` yields the feature set
with only `Extents` true, and decoding the readonly-compatible word `0x10`
yields the feature set with only `GdtCsum` true. -/
theorem decode_extents_and_gdtcsum_words :
    IncompatFeaturesFromInt 0x40 =
      { Compression := false, DirentFileType := false, Recovery := false,
        JournalDev := false, MetaBG := false, Extents := true,
        Is64Bit := false, MMP := false, FlexBg := false,
        ExtAttrInode := false, DirData := false, CsumSeed := false,
        LargeDir := false, InlineData := false, Encrypted := false } ∧
    RoCompatFeaturesFromInt 0x10 =
      { Sparse := false, LargeFile := false, BTreeDir := false,
        HugeFile := false, GdtCsum := true, DirNlink := false,
        ExtraIsize := false, HasSnapshot := false, Quota := false,
        Bigalloc := false, MetadataCsum := false, Replica := false,
        ReadOnly := false, Project := false } := by
  decide

/-- Claim C8: the error-policy enumeration values are `Continue = 1`,
`RemountReadOnly = 2`, `Panic = 3`, and the creator-OS enumeration values
are `Linux = 0`, `Hurd = 1`, `Masix = 2`, `FreeBSD = 3`, `Lites = 4`. -/
theorem errorPolicy_osCode_enum_values :
    Continue = 1 ∧ RemountReadOnly = 2 ∧ Panic = 3 ∧
    Linux = 0 ∧ Hurd = 1 ∧ Masix = 2 ∧ FreeBSD = 3 ∧ Lites = 4 := by
  decide

/-- Claim C9: the superblock state codec satisfies the same laws as the
feature codecs: decoding then encoding reproduces every `SbState` value, and
encoding the decode of any 16-bit integer `n` equals `n` masked to the three
known state bits, `0x7`. -/
theorem sbstate_codec_laws :
    (∀ s : SbState, SbStateFromInt s.ToInt = s) ∧
    (∀ n : Nat, n < 2 ^ 16 → (SbStateFromInt n).ToInt = n &&& 0x7) :=
  ⟨sbstate_fromInt_toInt, fun n _ => sbstate_toInt_fromInt n⟩

/-- Claim C9 witness: the state-codec masking law evaluated at the 16-bit
word `0xABCD`. -/
theorem sbstate_codec_laws_witness :
    (SbStateFromInt 0xABCD).ToInt = 0xABCD &&& 0x7 :=
  sbstate_codec_laws.2 0xABCD (by decide)

/-- Claim C10: the known incompatible-feature bits are not contiguous: bits
`0x20` and `0x800` are assigned to no field, so decoding ignores them for
every 32-bit word, and decoding `0x20` alone yields the all-false set. -/
theorem incompat_unassigned_bits_ignored (n : Nat) (_hn : n < 2 ^ 32) :
    IncompatFeaturesFromInt n = IncompatFeaturesFromInt (n &&& 0xFFFFF7DF) ∧
    IncompatFeaturesFromInt 0x20 =
      { Compression := false, DirentFileType := false, Recovery := false,
        JournalDev := false, MetaBG := false, Extents := false,
        Is64Bit := false, MMP := false, FlexBg := false,
        ExtAttrInode := false, DirData := false, CsumSeed := false,
        LargeDir := false, InlineData := false, Encrypted := false } :=
  ⟨incompat_fromInt_land_unassigned n, by decide⟩

/-- Claim C10 witness: the word `0x860` (Extents plus both unassigned bits)
decodes identically to the same word with the unassigned bits cleared. -/
theorem incompat_unassigned_bits_ignored_witness :
    IncompatFeaturesFromInt 0x860 =
      IncompatFeaturesFromInt (0x860 &&& 0xFFFFF7DF) :=
  (incompat_unassigned_bits_ignored 0x860 (by decide)).1

end Disklayout
